import Mathlib

/-!
Verification of the event-impact attribution and forecast-adjustment engine
of the MACRO_INVESTMENT_ANALYZER repository.

The Python source is shallowly embedded over exact rational arithmetic (ℚ).
Database reads and other external collaborators appear as explicit
parameters of the embedded functions: each getter's result is an input, and
Python truthiness of a possibly-absent result is modelled with `Option` or
with a nonzero test, exactly as the call site uses it.
-/

namespace CommodityIntegrator

/-! Embedding of `predict_commodity_price`
(src/models/commodity_integrator.py, lines 129-207).

The adjusted parameter dictionary is embedded as a structure; the values the
dictionary lookups can supply (with their `.get` defaults) are its fields. -/

/-- The adjusted supply/demand parameters consumed by the price projector,
after `adjust_commodity_parameters` has run (its output dictionary). -/
structure CommodityParams where
  supply : ℚ
  demand : ℚ
  inventory : ℚ
  price_elasticity : ℚ
  seasonal_factor : ℚ

/-- The prediction record built by `predict_commodity_price`.  The Python
dictionary stores `price_change_pct * 100`; the field `price_change_frac`
holds the clamped fractional change itself (the variable `price_change_pct`
of the source at line 185, before the `* 100` rendering at line 195). -/
structure PricePrediction where
  current_price : ℚ
  predicted_price : ℚ
  price_change_frac : ℚ
  supply_demand_ratio : ℚ
  inventory_days : ℚ
  confidence : ℚ

/-- Modelled from the spec: `_calculate_prediction_confidence` is invoked at
src/models/commodity_integrator.py line 201 but its definition is not
present under src/.  Per spec §4.5, "A prediction confidence score reuses
the same `min(0.5 + n/20, 0.95)` family based on the number of events
considered". -/
def calculate_prediction_confidence (n_events : ℕ) : ℚ :=
  min (1/2 + (n_events : ℚ) / 20) (19/20)

/-- Line 181: `max(0.5, min(1.5, 30 / inventory_days)) if inventory_days > 0
else 1.5`. -/
def inventoryFactor (inventory_days : ℚ) : ℚ :=
  if inventory_days > 0 then max (1/2) (min (3/2) (30 / inventory_days)) else 3/2

/-- `predict_commodity_price`, lines 147-207, from the point where the
current price has been fetched and the adjusted parameters are in hand.
`none` models the `return {}` early exits (lines 150-152 and 159-161);
`n_events` is the number of macro events the prediction considered. -/
def predict_commodity_price (current_price : ℚ) (p : CommodityParams)
    (n_events : ℕ) : Option PricePrediction :=
  if current_price ≤ 0 then none
  else if p.supply ≤ 0 ∨ p.demand ≤ 0 then none
  else
    let supply_demand_ratio := p.supply / p.demand
    let inventory_days := if p.demand > 0 then p.inventory / (p.demand / 365) else 0
    let raw := ((1 / supply_demand_ratio) - 1) * (-1 / p.price_elasticity)
      * p.seasonal_factor
    let damped := raw * inventoryFactor inventory_days
    let price_change_frac := max (min damped (1/2)) (-(3/10))
    some { current_price := current_price
           predicted_price := current_price * (1 + price_change_frac)
           price_change_frac := price_change_frac
           supply_demand_ratio := supply_demand_ratio
           inventory_days := inventory_days
           confidence := calculate_prediction_confidence n_events }

end CommodityIntegrator

/-- C3: the commodity projector's final fractional price change is clamped
to [-0.30, 0.50], the predicted price is current_price * (1 + clamped
change), and the damping inventory factor is clamp(30/inventory_days, 0.5,
1.5) with 1.5 taken when inventory_days ≤ 0. -/
theorem commodity_price_change_clamped (current_price : ℚ)
    (p : CommodityIntegrator.CommodityParams) (n : ℕ)
    (hc : 0 < current_price) (hs : 0 < p.supply) (hd : 0 < p.demand) :
    ∃ pred, CommodityIntegrator.predict_commodity_price current_price p n = some pred ∧
      -(3/10) ≤ pred.price_change_frac ∧ pred.price_change_frac ≤ 1/2 ∧
      pred.predicted_price = current_price * (1 + pred.price_change_frac) ∧
      (∀ d : ℚ, CommodityIntegrator.inventoryFactor d =
        if d ≤ 0 then 3/2 else max (1/2) (min (3/2) (30 / d))) := by
  rw [CommodityIntegrator.predict_commodity_price]
  rw [if_neg (by linarith), if_neg (by push_neg; constructor <;> linarith)]
  refine ⟨_, rfl, le_max_right _ _, max_le (min_le_right _ _) (by norm_num), rfl, ?_⟩
  intro d
  rw [CommodityIntegrator.inventoryFactor]
  rcases le_or_lt d 0 with h | h
  · rw [if_neg (not_lt.mpr h), if_pos h]
  · rw [if_pos h, if_neg (not_le.mpr h)]

/-- Witness for `commodity_price_change_clamped` at the oil default
parameters. -/
theorem commodity_price_change_clamped_witness :
    ∃ pred, CommodityIntegrator.predict_commodity_price 75
      ⟨10000, 9800, 1500, -(3/10), 1⟩ 0 = some pred ∧
      -(3/10) ≤ pred.price_change_frac ∧ pred.price_change_frac ≤ 1/2 ∧
      pred.predicted_price = 75 * (1 + pred.price_change_frac) ∧
      (∀ d : ℚ, CommodityIntegrator.inventoryFactor d =
        if d ≤ 0 then 3/2 else max (1/2) (min (3/2) (30 / d))) :=
  commodity_price_change_clamped 75 ⟨10000, 9800, 1500, -(3/10), 1⟩ 0
    (by decide) (by decide) (by decide)

namespace AttributionModel

/-! Embedding of `_perform_attribution_analysis`
(src/models/attribution_model.py, lines 244-351). -/

/-- The fields of the investment-decision row the algorithm reads:
`decision['asset_type']` and `decision.get('macro_adjustment', 0)`. -/
structure Decision where
  asset_type : String
  macro_adjustment : ℚ

/-- Results of the external getters the algorithm calls, one field per call
site, modelling the Python truthiness test each site performs:
* `has_related_events` — `_get_related_events` returned a nonempty list;
* `sector_performance` — the float `_get_sector_performance` returned
  (the call site treats `0.0` as falsy);
* `company_importance_sum` — `some s` iff `_get_company_events` returned a
  nonempty list whose importances (default 1) sum to `s`;
* `commodity_impact` — `some i` iff `_get_commodity_specific_factors`
  returned a truthy dictionary, with `i` the value of `.get('impact', 0.5)`;
* `sentiment_impact` — `some i` iff `_get_market_sentiment` returned a
  truthy dictionary, with `i` the value of `.get('impact', 0)`. -/
structure ExternalData where
  has_related_events : Bool
  sector_performance : ℚ
  company_importance_sum : Option ℚ
  commodity_impact : Option ℚ
  sentiment_impact : Option ℚ

/-- Lines 272-287: the macro-events contribution. -/
def macroContribution (d : Decision) (ext : ExternalData) (excess_return : ℚ) : ℚ :=
  if ext.has_related_events ∧ d.macro_adjustment ≠ 0 then
    let expected_impact := d.macro_adjustment * (1/2)
    if (expected_impact > 0 ∧ excess_return > 0) ∨
       (expected_impact < 0 ∧ excess_return < 0) then
      let m := min (|excess_return| * (2/5)) |expected_impact|
      if excess_return < 0 then -m else m
    else -(min (|excess_return| * (1/5)) |expected_impact|)
  else 0

/-- Lines 289-299: the sector contribution (stocks only; the call site's
`if sector_performance:` makes a 0.0 sector return contribute nothing). -/
def sectorContribution (d : Decision) (ext : ExternalData) (benchmark_return : ℚ) : ℚ :=
  if d.asset_type = "stock" ∧ ext.sector_performance ≠ 0 then
    (ext.sector_performance - benchmark_return) * (3/10)
  else 0

/-- Lines 301-319: the company/commodity specific contribution. -/
def specificContribution (d : Decision) (ext : ExternalData) (excess_return : ℚ) : ℚ :=
  if d.asset_type = "stock" then
    match ext.company_importance_sum with
    | some s => excess_return * (2/5) * min (s / 10) 1
    | none => 0
  else if d.asset_type = "commodity" then
    match ext.commodity_impact with
    | some i => excess_return * (1/2) * i
    | none => 0
  else 0

/-- Lines 321-329: the market-sentiment contribution. -/
def sentimentContribution (ext : ExternalData) (excess_return : ℚ) : ℚ :=
  match ext.sentiment_impact with
  | some i => excess_return * (1/5) * i
  | none => 0

/-- `_perform_attribution_analysis`, lines 244-351.  `factors` is
`self.factors`, the configured factor-name list used by the
small-excess-return branch (lines 264-267).  The returned association list
embeds the Python result dictionary (insertion order preserved); the final
block (lines 345-349) re-sums the dictionary and pushes any residual beyond
the 0.01 tolerance back into `unexplained`. -/
def perform_attribution_analysis (factors : List String) (d : Decision)
    (ext : ExternalData) (actual_return benchmark_return : ℚ) :
    List (String × ℚ) :=
  let excess_return := actual_return - benchmark_return
  if |excess_return| < 1/100 then
    factors.map (fun f => (f, 0))
  else
    let macro_contribution := macroContribution d ext excess_return
    let sector_contribution := sectorContribution d ext benchmark_return
    let specific_contribution := specificContribution d ext excess_return
    let sentiment_contribution := sentimentContribution ext excess_return
    let explained_return := macro_contribution + sector_contribution +
      specific_contribution + sentiment_contribution
    let unexplained := excess_return - explained_return
    let attribution : List (String × ℚ) :=
      [("macro_events", macro_contribution),
       ("sector_performance", sector_contribution),
       ("company_specific",
         if d.asset_type = "stock" then specific_contribution else 0),
       ("commodity_specific",
         if d.asset_type = "commodity" then specific_contribution else 0),
       ("market_sentiment", sentiment_contribution),
       ("unexplained", unexplained)]
    let total_attribution := (attribution.map Prod.snd).sum
    if |total_attribution - excess_return| > 1/100 then
      attribution.map (fun kv =>
        if kv.1 = "unexplained" then (kv.1, kv.2 + (excess_return - total_attribution))
        else kv)
    else attribution

/-- The six-entry attribution dictionary built at lines 336-343 sums to the
excess return `x` exactly: the specific contribution occupies exactly one of
the `company_specific` / `commodity_specific` slots (and is 0 for other
asset types), and `unexplained` is the residual by construction. -/
lemma attribution_list_sum (d : Decision) (ext : ExternalData) (m s st x : ℚ) :
    (([("macro_events", m), ("sector_performance", s),
       ("company_specific",
         if d.asset_type = "stock" then specificContribution d ext x else 0),
       ("commodity_specific",
         if d.asset_type = "commodity" then specificContribution d ext x else 0),
       ("market_sentiment", st),
       ("unexplained", x - (m + s + specificContribution d ext x + st))].map
         Prod.snd).sum : ℚ) = x := by
  simp only [List.map_cons, List.map_nil, List.sum_cons, List.sum_nil]
  by_cases h1 : d.asset_type = "stock"
  · rw [if_pos h1, if_neg (by rw [h1]; decide)]; ring
  · by_cases h2 : d.asset_type = "commodity"
    · rw [if_neg h1, if_pos h2]; ring
    · have hsp : specificContribution d ext x = 0 := by
        rw [specificContribution, if_neg h1, if_neg h2]
      rw [if_neg h1, if_neg h2, hsp]; ring

/-- On the decomposition branch (|excess return| ≥ 0.01), the final
re-balancing check at lines 345-349 never fires, because the dictionary
already sums exactly to the excess return; the result is the literal
six-entry association list of lines 336-343. -/
lemma perform_eq_attribution_list (factors : List String) (d : Decision)
    (ext : ExternalData) (actual_return benchmark_return : ℚ)
    (h : 1/100 ≤ |actual_return - benchmark_return|) :
    perform_attribution_analysis factors d ext actual_return benchmark_return =
      [("macro_events", macroContribution d ext (actual_return - benchmark_return)),
       ("sector_performance", sectorContribution d ext benchmark_return),
       ("company_specific",
         if d.asset_type = "stock" then
           specificContribution d ext (actual_return - benchmark_return) else 0),
       ("commodity_specific",
         if d.asset_type = "commodity" then
           specificContribution d ext (actual_return - benchmark_return) else 0),
       ("market_sentiment", sentimentContribution ext (actual_return - benchmark_return)),
       ("unexplained", (actual_return - benchmark_return) -
         (macroContribution d ext (actual_return - benchmark_return) +
          sectorContribution d ext benchmark_return +
          specificContribution d ext (actual_return - benchmark_return) +
          sentimentContribution ext (actual_return - benchmark_return)))] := by
  rw [perform_attribution_analysis]
  rw [if_neg (not_lt.mpr h)]
  simp only [attribution_list_sum]
  rw [if_neg (by simp)]

end AttributionModel

/-- C1: whenever |excess return| ≥ 0.01, the attribution values returned by
`_perform_attribution_analysis` sum to the excess return within the 0.01
tolerance (here: exactly, the residual having been absorbed into
`unexplained` by construction). -/
theorem attribution_sums_to_excess_return (factors : List String)
    (d : AttributionModel.Decision) (ext : AttributionModel.ExternalData)
    (actual_return benchmark_return : ℚ)
    (h : 1/100 ≤ |actual_return - benchmark_return|) :
    |((AttributionModel.perform_attribution_analysis factors d ext
        actual_return benchmark_return).map Prod.snd).sum -
      (actual_return - benchmark_return)| ≤ 1/100 := by
  rw [AttributionModel.perform_attribution_analysis]
  rw [if_neg (not_lt.mpr h)]
  set x := actual_return - benchmark_return with hx
  set m := AttributionModel.macroContribution d ext x
  set s := AttributionModel.sectorContribution d ext benchmark_return
  set sp := AttributionModel.specificContribution d ext x
  set st := AttributionModel.sentimentContribution ext x
  have hkey : ((if d.asset_type = "stock" then sp else 0) +
      (if d.asset_type = "commodity" then sp else 0) : ℚ) = sp ∨
      AttributionModel.specificContribution d ext x = 0 := by
    by_cases h1 : d.asset_type = "stock"
    · left; rw [if_pos h1, if_neg (by rw [h1]; decide)]; ring
    · by_cases h2 : d.asset_type = "commodity"
      · left; rw [if_neg h1, if_pos h2]; ring
      · right; rw [AttributionModel.specificContribution, if_neg h1, if_neg h2]
  have htotal : (([("macro_events", m), ("sector_performance", s),
      ("company_specific", if d.asset_type = "stock" then sp else 0),
      ("commodity_specific", if d.asset_type = "commodity" then sp else 0),
      ("market_sentiment", st),
      ("unexplained", x - (m + s + sp + st))].map Prod.snd).sum : ℚ) = x := by
    simp only [List.map_cons, List.map_nil, List.sum_cons, List.sum_nil]
    rcases hkey with hk | hk
    · have : ((if d.asset_type = "stock" then sp else 0) +
          ((if d.asset_type = "commodity" then sp else 0) +
            (st + (x - (m + s + sp + st) + 0))) : ℚ) =
          ((if d.asset_type = "stock" then sp else 0) +
            (if d.asset_type = "commodity" then sp else 0)) +
            (st + (x - (m + s + sp + st) + 0)) := by ring
      rw [this, hk]; ring
    · have hsp : sp = 0 := hk
      by_cases h1 : d.asset_type = "stock"
      · rw [if_pos h1, if_neg (by rw [h1]; decide), hsp]; ring
      · by_cases h2 : d.asset_type = "commodity"
        · rw [if_neg h1, if_pos h2, hsp]; ring
        · rw [if_neg h1, if_neg h2, hsp]; ring
  simp only [htotal]
  rw [if_neg (by simp)]
  rw [htotal]
  simp

/-- Witness for `attribution_sums_to_excess_return`: a stock decision with
excess return 1, a nonzero sector return and sentiment data present. -/
theorem attribution_sums_to_excess_return_witness :
    (1/100 : ℚ) ≤ |(1 : ℚ) - 0| ∧
    |((AttributionModel.perform_attribution_analysis ["macro_events"]
        ⟨"stock", 2⟩ ⟨true, 15, some 7, none, some 1⟩ 1 0).map Prod.snd).sum -
      ((1 : ℚ) - 0)| ≤ 1/100 :=
  ⟨by norm_num,
   attribution_sums_to_excess_return ["macro_events"] ⟨"stock", 2⟩
     ⟨true, 15, some 7, none, some 1⟩ 1 0 (by norm_num)⟩

/-- C2: whenever |excess return| < 0.01, every factor in the attribution
mapping returned by `_perform_attribution_analysis` is 0: the mapping is
exactly the configured factor list, each bound to 0, and no decomposition
is attempted. -/
theorem small_excess_attribution_all_zero (factors : List String)
    (d : AttributionModel.Decision) (ext : AttributionModel.ExternalData)
    (actual_return benchmark_return : ℚ)
    (h : |actual_return - benchmark_return| < 1/100) :
    ∀ p ∈ AttributionModel.perform_attribution_analysis factors d ext
        actual_return benchmark_return, p.2 = 0 := by
  rw [AttributionModel.perform_attribution_analysis, if_pos h]
  intro p hp
  simp only [List.mem_map] at hp
  obtain ⟨f, _, rfl⟩ := hp
  rfl

/-- Witness for `small_excess_attribution_all_zero` at a concrete decision
with zero excess return. -/
theorem small_excess_attribution_all_zero_witness :
    |(5 : ℚ) - 5| < 1/100 ∧
    ∀ p ∈ AttributionModel.perform_attribution_analysis
        ["macro_events", "sector_performance"] ⟨"stock", 1⟩
        ⟨true, 15, some 3, none, some 1⟩ 5 5, p.2 = 0 :=
  ⟨by norm_num,
   small_excess_attribution_all_zero ["macro_events", "sector_performance"]
     ⟨"stock", 1⟩ ⟨true, 15, some 3, none, some 1⟩ 5 5 (by norm_num)⟩

/-- C9 counterexample: the claim "each named contribution is a fixed
fraction of the excess return between 30% and 50% (gated by directional
agreement)" fails.  For a stock decision with excess return 1 (actual 1,
benchmark 0) and a sector return of 100, the `sector_performance`
contribution is `(100 - 0) * 0.3 = 30`: thirty times the excess return,
because the code takes 30% of the sector's own excess over the benchmark,
not of the decision's excess return.  Even the most generous reading of the
claim bounds every named contribution by 50% of |excess return|. -/
theorem attribution_counterexample :
    List.lookup "sector_performance"
      (AttributionModel.perform_attribution_analysis []
        ⟨"stock", 0⟩ ⟨false, 100, none, none, none⟩ 1 0) = some 30 ∧
    ¬ |(30 : ℚ)| ≤ (1/2) * |(1 : ℚ) - 0| := by
  constructor
  · rw [AttributionModel.perform_eq_attribution_list _ _ _ _ _ (by norm_num)]
    simp only [List.lookup, String.reduceBEq]
    norm_num [AttributionModel.sectorContribution]
  · norm_num

/-- C9 amended: when |excess return| ≥ 0.01 the named contributions are
heuristic, individually-scaled amounts, not fixed 30-50% fractions of the
excess return: macro_events is ±min(0.4·|excess|, |0.5·macro_adjustment|)
(sign following the excess) when the expected impact's sign agrees with the
excess return's, and −min(0.2·|excess|, |0.5·macro_adjustment|) on
disagreement (i.e. the 40% cap is halved to 20% and the contribution is
negated), and 0 when there are no related events or no macro adjustment;
sector_performance (equities with a nonzero sector return only) is 30% of
the sector's excess over the benchmark, not of the decision's excess;
company_specific (stocks) is 40% of the excess scaled by
min(importance_sum/10, 1); commodity_specific (commodities) is 50% of the
excess scaled by the commodity impact factor; market_sentiment is 20% of
the excess scaled by the sentiment impact; company_specific and
commodity_specific are mutually exclusive by asset type. -/
theorem attribution_coefficients (factors : List String)
    (d : AttributionModel.Decision) (ext : AttributionModel.ExternalData)
    (actual_return benchmark_return : ℚ)
    (h : 1/100 ≤ |actual_return - benchmark_return|) :
    ∀ r, r = AttributionModel.perform_attribution_analysis factors d ext
        actual_return benchmark_return →
    ∀ x, x = actual_return - benchmark_return →
      ((ext.has_related_events = true → d.macro_adjustment ≠ 0 →
        ((((0 < d.macro_adjustment ∧ 0 < x) ∨ (d.macro_adjustment < 0 ∧ x < 0)) →
          List.lookup "macro_events" r =
            some ((if x < 0 then -1 else 1) *
              min (|x| * (2/5)) (|d.macro_adjustment| * (1/2)))) ∧
         (¬((0 < d.macro_adjustment ∧ 0 < x) ∨ (d.macro_adjustment < 0 ∧ x < 0)) →
          List.lookup "macro_events" r =
            some (-(min (|x| * (1/5)) (|d.macro_adjustment| * (1/2))))))) ∧
       ((ext.has_related_events = false ∨ d.macro_adjustment = 0) →
         List.lookup "macro_events" r = some 0) ∧
       (d.asset_type = "stock" → ext.sector_performance ≠ 0 →
         List.lookup "sector_performance" r =
           some ((ext.sector_performance - benchmark_return) * (3/10))) ∧
       (d.asset_type = "stock" →
         List.lookup "company_specific" r =
           some (match ext.company_importance_sum with
                 | some s => x * (2/5) * min (s / 10) 1
                 | none => 0) ∧
         List.lookup "commodity_specific" r = some 0) ∧
       (d.asset_type = "commodity" →
         List.lookup "commodity_specific" r =
           some (match ext.commodity_impact with
                 | some i => x * (1/2) * i
                 | none => 0) ∧
         List.lookup "company_specific" r = some 0) ∧
       (List.lookup "market_sentiment" r =
         some (match ext.sentiment_impact with
               | some i => x * (1/5) * i
               | none => 0))) := by
  intro r hr x hx
  subst hr hx
  rw [AttributionModel.perform_eq_attribution_list _ _ _ _ _ h]
  simp only [List.lookup, String.reduceBEq]
  set x := actual_return - benchmark_return with hxdef
  refine ⟨?_, ?_, ?_, ?_, ?_, ?_⟩
  · intro hev hadj
    have habs : |d.macro_adjustment * (1/2)| = |d.macro_adjustment| * (1/2) := by
      rw [abs_mul]; norm_num
    constructor
    · intro hsign
      rw [AttributionModel.macroContribution, if_pos ⟨by simp [hev], hadj⟩]
      rcases hsign with ⟨h1, h2⟩ | ⟨h1, h2⟩
      · rw [if_pos (Or.inl ⟨by linarith, h2⟩), if_neg (not_lt.mpr (le_of_lt h2)), habs,
          if_neg (not_lt.mpr (le_of_lt h2)), one_mul]
      · rw [if_pos (Or.inr ⟨by linarith, h2⟩), if_pos h2, habs, if_pos h2, neg_one_mul]
    · intro hsign
      rw [AttributionModel.macroContribution, if_pos ⟨by simp [hev], hadj⟩]
      rw [if_neg, habs]
      push_neg at hsign ⊢
      constructor
      · intro h1
        exact hsign.1 (by linarith)
      · intro h1
        exact hsign.2 (by linarith)
  · intro hcase
    rw [AttributionModel.macroContribution, if_neg]
    rcases hcase with hc | hc
    · simp [hc]
    · simp [hc]
  · intro h1 h2
    rw [AttributionModel.sectorContribution, if_pos ⟨h1, h2⟩]
  · intro h1
    constructor
    · rw [if_pos h1, AttributionModel.specificContribution, if_pos h1]
    · rw [if_neg (by rw [h1]; decide)]
  · intro h1
    constructor
    · rw [if_pos h1, AttributionModel.specificContribution, if_neg (by rw [h1]; decide),
        if_pos h1]
    · rw [if_neg (by rw [h1]; decide)]
  · rw [AttributionModel.sentimentContribution]

/-- Witness for `attribution_coefficients`: the market-sentiment slot of a
concrete stock decision carries 0.2 · excess · impact. -/
theorem attribution_coefficients_witness :
    List.lookup "market_sentiment"
      (AttributionModel.perform_attribution_analysis [] ⟨"stock", 2⟩
        ⟨true, 15, some 7, none, some 1⟩ 1 0) =
      some (((1 : ℚ) - 0) * (1/5) * 1) :=
  (attribution_coefficients [] ⟨"stock", 2⟩ ⟨true, 15, some 7, none, some 1⟩
    1 0 (by norm_num) _ rfl _ rfl).2.2.2.2.2

namespace QuantitativeAnalyzer

/-- One row of the `keyword_matches` ⋈ `news_articles` query at lines
152-158: the fields `identify_macro_events` reads.  Dates are day numbers.
One row exists per (article, keyword) pair, so one article matching several
keywords of a category contributes several rows. -/
structure KeywordMatch where
  keyword_category : String
  keyword : String
  match_count : ℕ
  article_id : ℕ
  published_date : ℕ
deriving DecidableEq

/-- A candidate macro event (lines 121-130) restricted to the fields the
grouping logic computes from the match rows alone; the event name,
description and sentiment snapshot (which need the external sentiment
store) are not modelled. -/
structure MacroEvent where
  event_category : String
  importance : ℕ
  article_ids : List ℕ
  start_date : Option ℕ
deriving DecidableEq

/-- The categories in first-occurrence order: the key order of the Python
grouping dictionary built at lines 81-86. -/
def firstOccurrences (l : List String) : List String :=
  l.foldl (fun acc c => if c ∈ acc then acc else acc ++ [c]) []

/-- The loop body of `identify_macro_events` for one category (lines
90-133): the category's group is every match row carrying it; a group of
fewer than 5 rows yields nothing (line 92), otherwise one event with
`importance = min(5, max(1, int(group_size / 5)))` (line 111), the group's
article ids (line 94) and the earliest published date (line 118). -/
def emitEvent (keyword_matches : List KeywordMatch) (category : String) :
    Option MacroEvent :=
  let group := keyword_matches.filter (fun m => m.keyword_category == category)
  if 5 ≤ group.length then
    some { event_category := category
           importance := min 5 (max 1 (group.length / 5))
           article_ids := group.map (fun m => m.article_id)
           start_date := (group.map (fun m => m.published_date)).min? }
  else none

/-- `identify_macro_events`, lines 61-135, for a given batch of recent
keyword-match rows: group the rows by category (lines 81-86, grouping key
order is first occurrence) and run the per-category loop body on each
group. -/
def identify_macro_events (keyword_matches : List KeywordMatch) : List MacroEvent :=
  (firstOccurrences (keyword_matches.map (fun m => m.keyword_category))).filterMap
    (emitEvent keyword_matches)

lemma mem_foldl_insert (l : List String) (acc : List String) (a : String) :
    a ∈ l.foldl (fun acc c => if c ∈ acc then acc else acc ++ [c]) acc ↔
      a ∈ acc ∨ a ∈ l := by
  induction l generalizing acc with
  | nil => simp
  | cons c rest ih =>
    simp only [List.foldl_cons]
    by_cases hc : c ∈ acc
    · rw [if_pos hc, ih]
      constructor
      · rintro (h | h)
        · exact Or.inl h
        · exact Or.inr (List.mem_cons_of_mem _ h)
      · rintro (h | h)
        · exact Or.inl h
        · rcases List.mem_cons.mp h with rfl | h
          · exact Or.inl hc
          · exact Or.inr h
    · rw [if_neg hc, ih]
      simp only [List.mem_append, List.mem_singleton, List.mem_cons, or_assoc,
        List.not_mem_nil, false_or]
  
lemma foldl_insert_nodup (l : List String) (acc : List String) (h : acc.Nodup) :
    (l.foldl (fun acc c => if c ∈ acc then acc else acc ++ [c]) acc).Nodup := by
  induction l generalizing acc with
  | nil => exact h
  | cons c rest ih =>
    simp only [List.foldl_cons]
    by_cases hc : c ∈ acc
    · rw [if_pos hc]
      exact ih _ h
    · rw [if_neg hc]
      refine ih _ ?_
      rw [List.nodup_append]
      refine ⟨h, List.nodup_singleton c, ?_⟩
      rw [List.disjoint_singleton]
      exact hc

lemma mem_firstOccurrences (l : List String) (a : String) :
    a ∈ firstOccurrences l ↔ a ∈ l := by
  rw [firstOccurrences, mem_foldl_insert]
  simp

lemma firstOccurrences_nodup (l : List String) : (firstOccurrences l).Nodup :=
  foldl_insert_nodup l [] List.nodup_nil


lemma filterMap_preserves_category
    (f : String → Option MacroEvent)
    (hf : ∀ c e, f c = some e → e.event_category = c) :
    ∀ (L : List String) (c : String), c ∉ L →
      (L.filterMap f).filter (fun e => e.event_category == c) = [] := by
  intro L
  induction L with
  | nil =>
    intro c _
    rfl
  | cons a L ih =>
    intro c hc
    have hca : c ≠ a := fun h => hc (h ▸ List.mem_cons_self a L)
    have hcl : c ∉ L := fun h => hc (List.mem_cons_of_mem _ h)
    rw [List.filterMap_cons]
    cases hfa : f a with
    | none => exact ih c hcl
    | some e =>
      rw [List.filter_cons]
      have hb : (e.event_category == c) = false := by
        rw [hf a e hfa]
        exact beq_false_of_ne (fun h => hca h.symm)
      rw [hb]
      simp only [Bool.false_eq_true, if_false]
      exact ih c hcl

lemma filterMap_count_one
    (f : String → Option MacroEvent)
    (hf : ∀ c e, f c = some e → e.event_category = c) :
    ∀ (L : List String), L.Nodup → ∀ c, c ∈ L →
      (∃ e, f c = some e) →
      ((L.filterMap f).filter (fun e => e.event_category == c)).length = 1 := by
  intro L
  induction L with
  | nil =>
    intro _ c hc _
    exact absurd hc (List.not_mem_nil c)
  | cons a L ih =>
    rintro hnd c hc ⟨e, he⟩
    have hand := List.nodup_cons.mp hnd
    rw [List.filterMap_cons]
    rcases List.mem_cons.mp hc with rfl | hcl
    · rw [he, List.filter_cons]
      have hb : (e.event_category == c) = true := by
        rw [hf c e he]
        exact beq_self_eq_true c
      rw [hb]
      simp only [if_true, List.length_cons]
      rw [filterMap_preserves_category f hf L c hand.1]
      rfl
    · have hca : c ≠ a := fun h => hand.1 (h ▸ hcl)
      cases hfa : f a with
      | none => exact ih hand.2 c hcl ⟨e, he⟩
      | some e2 =>
        rw [List.filter_cons]
        have hb : (e2.event_category == c) = false := by
          rw [hf a e2 hfa]
          exact beq_false_of_ne (fun h => hca h.symm)
        rw [hb]
        simp only [Bool.false_eq_true, if_false]
        exact ih hand.2 c hcl ⟨e, he⟩

lemma emitEvent_category (keyword_matches : List KeywordMatch) (c : String)
    (e : MacroEvent) (h : emitEvent keyword_matches c = some e) :
    e.event_category = c := by
  simp only [emitEvent] at h
  split at h
  · cases h
    rfl
  · cases h

end QuantitativeAnalyzer


/-- C4 amended: the Event Identifier emits a candidate event for a
category only if that category has at least 5 keyword-match rows in the
trailing window -- rows, not distinct documents: one article matching
several keywords of the category contributes one row per keyword -- and it
emits exactly one event per qualifying category per run. -/
theorem event_identifier_threshold_and_uniqueness
    (keyword_matches : List QuantitativeAnalyzer.KeywordMatch) :
    (∀ e ∈ QuantitativeAnalyzer.identify_macro_events keyword_matches,
       5 ≤ (keyword_matches.filter
         (fun m => m.keyword_category == e.event_category)).length) ∧
    (∀ c, c ∈ keyword_matches.map (fun m => m.keyword_category) →
       5 ≤ (keyword_matches.filter (fun m => m.keyword_category == c)).length →
       ((QuantitativeAnalyzer.identify_macro_events keyword_matches).filter
          (fun e => e.event_category == c)).length = 1) := by
  constructor
  · intro e he
    rw [QuantitativeAnalyzer.identify_macro_events] at he
    rcases List.mem_filterMap.mp he with ⟨c, _, hce⟩
    have hcat := QuantitativeAnalyzer.emitEvent_category _ _ _ hce
    simp only [QuantitativeAnalyzer.emitEvent] at hce
    split at hce
    · rw [hcat]
      assumption
    · cases hce
  · intro c hcmem hq
    rw [QuantitativeAnalyzer.identify_macro_events]
    have hsome : ∃ e, QuantitativeAnalyzer.emitEvent keyword_matches c = some e := by
      simp only [QuantitativeAnalyzer.emitEvent]
      rw [if_pos hq]
      exact ⟨_, rfl⟩
    exact QuantitativeAnalyzer.filterMap_count_one _
      (QuantitativeAnalyzer.emitEvent_category _) _
      (QuantitativeAnalyzer.firstOccurrences_nodup _) c
      ((QuantitativeAnalyzer.mem_firstOccurrences _ _).mpr hcmem) hsome

/-- C4 counterexample: five match rows that all cite the same document
(article id 1) still qualify, so an event is emitted for a category with
only one distinct contributing document, refuting "at least 5 distinct
contributing documents (never for fewer)". -/
theorem event_identifier_distinct_docs_counterexample :
    ((QuantitativeAnalyzer.identify_macro_events
      [⟨"trade_policy", "tariff", 2, 1, 10⟩,
       ⟨"trade_policy", "quota", 1, 1, 10⟩,
       ⟨"trade_policy", "embargo", 1, 1, 10⟩,
       ⟨"trade_policy", "sanction", 3, 1, 10⟩,
       ⟨"trade_policy", "duty", 1, 1, 10⟩]).length = 1) ∧
    (([⟨"trade_policy", "tariff", 2, 1, 10⟩,
       ⟨"trade_policy", "quota", 1, 1, 10⟩,
       ⟨"trade_policy", "embargo", 1, 1, 10⟩,
       ⟨"trade_policy", "sanction", 3, 1, 10⟩,
       ⟨"trade_policy", "duty", 1, 1, 10⟩] :
        List QuantitativeAnalyzer.KeywordMatch).map
          (fun m => m.article_id)).dedup.length = 1 := by
  constructor
  · decide
  · decide

/-- Witness for `event_identifier_threshold_and_uniqueness`: a qualifying
five-row category yields exactly one event. -/
theorem event_identifier_witness :
    ((QuantitativeAnalyzer.identify_macro_events
      [⟨"trade_policy", "tariff", 2, 1, 10⟩,
       ⟨"trade_policy", "quota", 1, 2, 11⟩,
       ⟨"trade_policy", "embargo", 1, 3, 12⟩,
       ⟨"trade_policy", "sanction", 3, 4, 13⟩,
       ⟨"trade_policy", "duty", 1, 5, 14⟩]).filter
        (fun e => e.event_category == "trade_policy")).length = 1 :=
  (event_identifier_threshold_and_uniqueness
      [⟨"trade_policy", "tariff", 2, 1, 10⟩,
       ⟨"trade_policy", "quota", 1, 2, 11⟩,
       ⟨"trade_policy", "embargo", 1, 3, 12⟩,
       ⟨"trade_policy", "sanction", 3, 4, 13⟩,
       ⟨"trade_policy", "duty", 1, 5, 14⟩]).2
    "trade_policy" (by decide) (by decide)

/-- C8 amended: the emitted event's importance is
`clamp(floor(group_size / 5), 1, 5)` -- `int()` truncation, not rounding to
nearest -- and therefore always lies in the integer range [1, 5]. -/
theorem event_importance_clamped_floor
    (keyword_matches : List QuantitativeAnalyzer.KeywordMatch) :
    ∀ e ∈ QuantitativeAnalyzer.identify_macro_events keyword_matches,
      e.importance = min 5 (max 1
        ((keyword_matches.filter
          (fun m => m.keyword_category == e.event_category)).length / 5)) ∧
      1 ≤ e.importance ∧ e.importance ≤ 5 := by
  intro e he
  rw [QuantitativeAnalyzer.identify_macro_events] at he
  rcases List.mem_filterMap.mp he with ⟨c, _, hce⟩
  simp only [QuantitativeAnalyzer.emitEvent] at hce
  split at hce
  · cases hce
    refine ⟨rfl, ?_, ?_⟩
    · exact le_min (by norm_num) (le_max_left 1 _)
    · exact Nat.min_le_left _ _
  · cases hce

/-- C8 counterexample: for a qualifying group of 8 rows the code computes
`min(5, max(1, int(8 / 5))) = 1`, while the claimed
`clamp(round(8 / 5), 1, 5)` is 2. -/
theorem event_importance_round_counterexample :
    ((QuantitativeAnalyzer.identify_macro_events
      [⟨"monetary_policy", "rates", 1, 1, 10⟩,
       ⟨"monetary_policy", "fed", 1, 2, 10⟩,
       ⟨"monetary_policy", "hike", 1, 3, 10⟩,
       ⟨"monetary_policy", "cut", 1, 4, 10⟩,
       ⟨"monetary_policy", "qe", 1, 5, 10⟩,
       ⟨"monetary_policy", "inflation", 1, 6, 10⟩,
       ⟨"monetary_policy", "dove", 1, 7, 10⟩,
       ⟨"monetary_policy", "hawk", 1, 8, 10⟩]).map
        (fun e => e.importance)) = [1] ∧
    (min 5 (max 1 (round ((8:ℚ)/5))) : ℤ) = 2 ∧ (1:ℤ) ≠ 2 :=
  ⟨by decide, by norm_num [round_eq], by decide⟩

/-- Witness for `event_importance_clamped_floor` at the eight-row group. -/
theorem event_importance_clamped_floor_witness :
    (⟨"monetary_policy", 1, [1, 2, 3, 4, 5, 6, 7, 8], some 10⟩ :
        QuantitativeAnalyzer.MacroEvent) ∈
      QuantitativeAnalyzer.identify_macro_events
        [⟨"monetary_policy", "rates", 1, 1, 10⟩,
         ⟨"monetary_policy", "fed", 1, 2, 10⟩,
         ⟨"monetary_policy", "hike", 1, 3, 10⟩,
         ⟨"monetary_policy", "cut", 1, 4, 10⟩,
         ⟨"monetary_policy", "qe", 1, 5, 10⟩,
         ⟨"monetary_policy", "inflation", 1, 6, 10⟩,
         ⟨"monetary_policy", "dove", 1, 7, 10⟩,
         ⟨"monetary_policy", "hawk", 1, 8, 10⟩] ∧
    ((⟨"monetary_policy", 1, [1, 2, 3, 4, 5, 6, 7, 8], some 10⟩ :
        QuantitativeAnalyzer.MacroEvent).importance = min 5 (max 1
        ((([⟨"monetary_policy", "rates", 1, 1, 10⟩,
           ⟨"monetary_policy", "fed", 1, 2, 10⟩,
           ⟨"monetary_policy", "hike", 1, 3, 10⟩,
           ⟨"monetary_policy", "cut", 1, 4, 10⟩,
           ⟨"monetary_policy", "qe", 1, 5, 10⟩,
           ⟨"monetary_policy", "inflation", 1, 6, 10⟩,
           ⟨"monetary_policy", "dove", 1, 7, 10⟩,
           ⟨"monetary_policy", "hawk", 1, 8, 10⟩] :
             List QuantitativeAnalyzer.KeywordMatch).filter
          (fun m => m.keyword_category == "monetary_policy")).length / 5)) ∧
      1 ≤ (⟨"monetary_policy", 1, [1, 2, 3, 4, 5, 6, 7, 8], some 10⟩ :
        QuantitativeAnalyzer.MacroEvent).importance ∧
      (⟨"monetary_policy", 1, [1, 2, 3, 4, 5, 6, 7, 8], some 10⟩ :
        QuantitativeAnalyzer.MacroEvent).importance ≤ 5) :=
  ⟨by decide,
   event_importance_clamped_floor
     [⟨"monetary_policy", "rates", 1, 1, 10⟩,
      ⟨"monetary_policy", "fed", 1, 2, 10⟩,
      ⟨"monetary_policy", "hike", 1, 3, 10⟩,
      ⟨"monetary_policy", "cut", 1, 4, 10⟩,
      ⟨"monetary_policy", "qe", 1, 5, 10⟩,
      ⟨"monetary_policy", "inflation", 1, 6, 10⟩,
      ⟨"monetary_policy", "dove", 1, 7, 10⟩,
      ⟨"monetary_policy", "hawk", 1, 8, 10⟩] _ (by decide)⟩

namespace QuantitativeAnalyzer

/-- One row of `_analyze_indicator_impact`'s per-event indicator data: the
pair `(before_value, after_value)` fetched at lines 454-455 for one similar
event; `none` models a `_get_indicator_value` miss (no data within the
7-day tolerance). -/
structure EventImpact where
  impact_target : String
  impact_type : String
  impact_value : ℚ
  confidence : ℚ
  time_horizon : String

/-- Lines 450-460: the change-rate sample, one entry per similar event
whose before and after values were both found; a zero before-value yields
a change rate of 0 (the guarded fallback at line 459). -/
def indicatorChanges (data : List (Option ℚ × Option ℚ)) : List ℚ :=
  data.filterMap (fun p =>
    match p with
    | (some before_value, some after_value) =>
        some (if before_value ≠ 0 then
          (after_value - before_value) / before_value else 0)
    | _ => none)

/-- `_analyze_indicator_impact`, lines 436-487: `none` when no similar
event produced a change rate (lines 462-464), otherwise the impact record
with the mean change, `direct`/`indirect` by the 0.01 magnitude threshold,
and `confidence = min(0.5 + matched_count / 20, 0.95)` (line 470). -/
def analyze_indicator_impact (indicator : String)
    (data : List (Option ℚ × Option ℚ)) : Option EventImpact :=
  let indicator_changes := indicatorChanges data
  if indicator_changes = [] then none
  else
    let avg_change := indicator_changes.sum / indicator_changes.length
    some { impact_target := indicator
           impact_type := if 1/100 < |avg_change| then "direct" else "indirect"
           impact_value := avg_change
           confidence := min (1/2 + (indicator_changes.length : ℚ) / 20) (19/20)
           time_horizon := "short_term" }

/-- `analyze_event_impact`, lines 330-358: analyze the four fixed
indicators against the similar-event data (supplied here by `getData`,
embedding the `_get_indicator_value` reads for each indicator) and keep
the analyses that produced a record. -/
def analyze_event_impact (getData : String → List (Option ℚ × Option ℚ)) :
    List EventImpact :=
  ["gdp", "interest_rate", "inflation", "commodity:general"].filterMap
    (fun indicator => analyze_indicator_impact indicator (getData indicator))

lemma analyze_indicator_impact_target (indicator : String)
    (data : List (Option ℚ × Option ℚ)) (imp : EventImpact)
    (h : analyze_indicator_impact indicator data = some imp) :
    imp.impact_target = indicator := by
  simp only [analyze_indicator_impact] at h
  split at h
  · cases h
  · cases h
    rfl

end QuantitativeAnalyzer

/-- C5: whenever the Impact Estimator produces an EventImpact (at least
one matched analogous event), its confidence equals
`min(0.5 + matched_count / 20, 0.95)`; that formula is monotonically
non-decreasing in the matched count and never exceeds 0.95. -/
theorem impact_confidence_formula (indicator : String)
    (data : List (Option ℚ × Option ℚ))
    (imp : QuantitativeAnalyzer.EventImpact)
    (h : QuantitativeAnalyzer.analyze_indicator_impact indicator data = some imp) :
    1 ≤ (QuantitativeAnalyzer.indicatorChanges data).length ∧
    imp.confidence = min (1/2 +
      ((QuantitativeAnalyzer.indicatorChanges data).length : ℚ) / 20) (19/20) ∧
    (∀ m n : ℕ, m ≤ n →
      min (1/2 + (m : ℚ) / 20) (19/20) ≤ min (1/2 + (n : ℚ) / 20) (19/20)) ∧
    imp.confidence ≤ 19/20 := by
  simp only [QuantitativeAnalyzer.analyze_indicator_impact] at h
  split at h
  · cases h
  · cases h
    rename_i hne
    refine ⟨?_, rfl, ?_, min_le_right _ _⟩
    · exact List.length_pos.mpr hne
    · intro m n hmn
      refine min_le_min (add_le_add_left ?_ _) le_rfl
      have : (m : ℚ) ≤ n := by exact_mod_cast hmn
      linarith

/-- Witness for `impact_confidence_formula` with one matched event:
confidence 0.55. -/
theorem impact_confidence_formula_witness :
    QuantitativeAnalyzer.analyze_indicator_impact "gdp" [(some 1, some 2)] =
      some ⟨"gdp", "direct", 1, 11/20, "short_term"⟩ ∧
    (1 ≤ (QuantitativeAnalyzer.indicatorChanges [(some 1, some 2)]).length ∧
     (⟨"gdp", "direct", 1, 11/20, "short_term"⟩ :
        QuantitativeAnalyzer.EventImpact).confidence = min (1/2 +
       ((QuantitativeAnalyzer.indicatorChanges
         [(some 1, some 2)]).length : ℚ) / 20) (19/20) ∧
     (∀ m n : ℕ, m ≤ n →
       min (1/2 + (m : ℚ) / 20) (19/20) ≤ min (1/2 + (n : ℚ) / 20) (19/20)) ∧
     (⟨"gdp", "direct", 1, 11/20, "short_term"⟩ :
        QuantitativeAnalyzer.EventImpact).confidence ≤ 19/20) := by
  have h : QuantitativeAnalyzer.analyze_indicator_impact "gdp" [(some 1, some 2)] =
      some ⟨"gdp", "direct", 1, 11/20, "short_term"⟩ := by
    simp only [QuantitativeAnalyzer.analyze_indicator_impact,
      QuantitativeAnalyzer.indicatorChanges, List.filterMap]
    norm_num
  exact ⟨h, impact_confidence_formula "gdp" [(some 1, some 2)] _ h⟩

/-- C6: when zero analogous events yield a matched before/after pair, the
Impact Estimator returns `none` for that indicator -- no zero-impact record
-- and the caller's impact list simply omits that indicator; the embedded
functions are total, so no error reaches the caller. -/
theorem impact_absent_when_no_match :
    (∀ (indicator : String) (data : List (Option ℚ × Option ℚ)),
       QuantitativeAnalyzer.indicatorChanges data = [] →
       QuantitativeAnalyzer.analyze_indicator_impact indicator data = none) ∧
    (∀ (getData : String → List (Option ℚ × Option ℚ)) (indicator : String),
       QuantitativeAnalyzer.indicatorChanges (getData indicator) = [] →
       ∀ imp ∈ QuantitativeAnalyzer.analyze_event_impact getData,
         imp.impact_target ≠ indicator) := by
  have habs : ∀ (indicator : String) (data : List (Option ℚ × Option ℚ)),
      QuantitativeAnalyzer.indicatorChanges data = [] →
      QuantitativeAnalyzer.analyze_indicator_impact indicator data = none := by
    intro indicator data hdata
    simp only [QuantitativeAnalyzer.analyze_indicator_impact]
    rw [if_pos hdata]
  refine ⟨habs, ?_⟩
  intro getData indicator hdata imp hmem
  rw [QuantitativeAnalyzer.analyze_event_impact] at hmem
  rcases List.mem_filterMap.mp hmem with ⟨ind2, _, hsome⟩
  have htarget := QuantitativeAnalyzer.analyze_indicator_impact_target _ _ _ hsome
  intro hcontra
  rw [htarget] at hcontra
  subst hcontra
  rw [habs ind2 _ hdata] at hsome
  cases hsome

/-- Witness for `impact_absent_when_no_match`: two half-matched events
produce no record. -/
theorem impact_absent_when_no_match_witness :
    QuantitativeAnalyzer.indicatorChanges
      ([(none, some 3), (some 2, none)] : List (Option ℚ × Option ℚ)) = [] ∧
    QuantitativeAnalyzer.analyze_indicator_impact "gdp"
      [(none, some 3), (some 2, none)] = none :=
  ⟨by decide,
   impact_absent_when_no_match.1 "gdp" [(none, some 3), (some 2, none)] (by decide)⟩

namespace HistoricalAnalyzer

/-- The classification step of `analyze_event_market_correlation`
(src/analysis/historical_analyzer.py, lines 478-493): direction and
strength from the mean change of the sample and the one-sample t-test
p-value (the t statistic and p-value themselves are computed by
`scipy.stats.ttest_1samp` and enter here as an input). -/
def classify_correlation (avg_change p_value : ℚ) : String × String :=
  if p_value < 1/20 then
    (if avg_change > 0 then "positive" else "negative",
     if |avg_change| > 1/10 then "strong"
     else if |avg_change| > 1/20 then "moderate"
     else "weak")
  else ("neutral", "insignificant")

end HistoricalAnalyzer

/-- C7: the Correlation Analyzer classifies (neutral, insignificant) when
p ≥ 0.05; otherwise direction follows the sign of the mean change and
strength is strong for |mean| > 0.10, moderate for |mean| > 0.05, weak
otherwise; in particular mean +0.08 with p < 0.05 gives
(positive, moderate). -/
theorem correlation_classification (avg_change p_value : ℚ) :
    (1/20 ≤ p_value →
      HistoricalAnalyzer.classify_correlation avg_change p_value =
        ("neutral", "insignificant")) ∧
    (p_value < 1/20 →
      (0 < avg_change →
        (HistoricalAnalyzer.classify_correlation avg_change p_value).1 =
          "positive") ∧
      (avg_change < 0 →
        (HistoricalAnalyzer.classify_correlation avg_change p_value).1 =
          "negative") ∧
      (HistoricalAnalyzer.classify_correlation avg_change p_value).2 =
        (if |avg_change| > 1/10 then "strong"
         else if |avg_change| > 1/20 then "moderate"
         else "weak")) ∧
    (p_value < 1/20 →
      HistoricalAnalyzer.classify_correlation (8/100) p_value =
        ("positive", "moderate")) := by
  refine ⟨?_, ?_, ?_⟩
  · intro h
    rw [HistoricalAnalyzer.classify_correlation, if_neg (not_lt.mpr h)]
  · intro h
    rw [HistoricalAnalyzer.classify_correlation, if_pos h]
    refine ⟨?_, ?_, rfl⟩
    · intro ha
      simp only [if_pos ha]
    · intro ha
      simp only [if_neg (not_lt.mpr (le_of_lt ha))]
  · intro h
    rw [HistoricalAnalyzer.classify_correlation, if_pos h]
    have h1 : ¬ |(8/100 : ℚ)| > 1/10 := by
      rw [abs_of_pos (by norm_num)]
      norm_num
    have h2 : |(8/100 : ℚ)| > 1/20 := by
      rw [abs_of_pos (by norm_num)]
      norm_num
    rw [if_pos (by norm_num : (0:ℚ) < 8/100), if_neg h1, if_pos h2]

/-- Witness for `correlation_classification` at mean +0.08, p = 0.01. -/
theorem correlation_classification_witness :
    ((1 : ℚ)/100 < 1/20) ∧
    HistoricalAnalyzer.classify_correlation (8/100) (1/100) =
      ("positive", "moderate") :=
  ⟨by norm_num,
   (correlation_classification (8/100) (1/100)).2.2 (by norm_num)⟩

/-- C10: every prediction the commodity projector returns carries
confidence `min(0.5 + n/20, 0.95)` where `n` is the number of macro events
considered (via the spec-modelled `calculate_prediction_confidence`, whose
definition is absent from src/). -/
theorem commodity_prediction_confidence (current_price : ℚ)
    (p : CommodityIntegrator.CommodityParams) (n : ℕ)
    (hc : 0 < current_price) (hs : 0 < p.supply) (hd : 0 < p.demand) :
    ∃ pred, CommodityIntegrator.predict_commodity_price current_price p n =
        some pred ∧
      pred.confidence = min (1/2 + (n : ℚ) / 20) (19/20) := by
  rw [CommodityIntegrator.predict_commodity_price]
  rw [if_neg (by linarith), if_neg (by push_neg; constructor <;> linarith)]
  exact ⟨_, rfl, rfl⟩

/-- Witness for `commodity_prediction_confidence` with three events. -/
theorem commodity_prediction_confidence_witness :
    ∃ pred, CommodityIntegrator.predict_commodity_price 75
        ⟨10000, 9800, 1500, -(3/10), 1⟩ 3 = some pred ∧
      pred.confidence = min (1/2 + (3 : ℚ) / 20) (19/20) :=
  commodity_prediction_confidence 75 ⟨10000, 9800, 1500, -(3/10), 1⟩ 3
    (by decide) (by decide) (by decide)
